import Mathlib

/-!
Verification development for the Zenlit coordinate-bucketed proximity
matching subsystem: the SQL bucket resolver
(`get_users_in_location_bucket`), the client location utilities
(`lib/location.ts`), and the client `LocationToggleManager` state machine
(`lib/locationToggle.ts`).  Machine reals (JS doubles / SQL numerics) are
embedded as exact rationals; the effectful manager is embedded as explicit
state passing with a per-operation environment record and an effect log.
-/

namespace Zenlit

/-! Rounding to two decimal places.

The client rounds with `Number(x.toFixed(2))`.  ECMAScript specifies
`toFixed(2)` on a non-negative value as: choose the integer `n` for which
`n / 100 - x` is as close to zero as possible, and if there are two such
`n`, pick the larger; a negative value is rounded by magnitude and the
sign is re-applied.  `toFixedDigits` picks that integer for a non-negative
magnitude by comparing the two candidate distances. -/
def toFixedDigits (m : ℚ) : ℤ :=
  let t := m * 100
  let lo : ℤ := ⌊t⌋
  if t - lo < (lo + 1 : ℚ) - t then lo else lo + 1

/-- Client-side rounding `Number(x.toFixed(2))` on an exact value. -/
def toFixed2 (x : ℚ) : ℚ :=
  if x < 0 then -((toFixedDigits (-x) : ℚ) / 100)
  else (toFixedDigits x : ℚ) / 100

/-- Server-side rounding `ROUND(x::numeric, 2)`: PostgreSQL `numeric`
rounding is round-half-away-from-zero on the exact decimal value. -/
def sqlRound2 (x : ℚ) : ℚ :=
  if x < 0 then -((⌊(-x) * 100 + 1 / 2⌋ : ℚ) / 100)
  else ((⌊x * 100 + 1 / 2⌋ : ℚ) / 100)

/-! Client location types and utilities (`lib/location.ts`). -/

/-- The `UserLocation` value from `types`: decimal degrees plus
accuracy/timestamp. -/
structure UserLocation where
  latitude : ℚ
  longitude : ℚ
  accuracy : ℚ
  timestamp : ℕ
deriving DecidableEq, Repr

/-- A raw `GeolocationPosition` sample as delivered by the platform. -/
structure RawPosition where
  latitude : ℚ
  longitude : ℚ
  accuracy : ℚ
deriving DecidableEq, Repr

/-- Embedding of `hasLocationChanged`: compares the two coordinates after rounding each
component with `Number(x.toFixed(2))`; true iff either rounded component
differs. -/
def hasLocationChanged (oldLocation newLocation : UserLocation) : Bool :=
  decide (toFixed2 oldLocation.latitude ≠ toFixed2 newLocation.latitude ∨
    toFixed2 oldLocation.longitude ≠ toFixed2 newLocation.longitude)

/-- Bucket equality on the client: the negation of `hasLocationChanged`. -/
def sameBucket (a b : UserLocation) : Bool :=
  !hasLocationChanged a b

/-- Pre-rounding a coordinate pair to two decimals (`round(·, 2)` on each
component). -/
def roundLocation (l : UserLocation) : UserLocation :=
  { l with latitude := toFixed2 l.latitude, longitude := toFixed2 l.longitude }

/-! The bucket resolver (`get_users_in_location_bucket`, migration
`20250623170223_create_messages_table.sql`) -/

/-- A row of the `profiles` table (the columns the resolver touches). -/
structure Profile where
  id : String
  name : Option String
  username : Option String
  email : Option String
  bio : Option String
  profile_photo_url : Option String
  cover_photo_url : Option String
  instagram_url : Option String
  linked_in_url : Option String
  twitter_url : Option String
  latitude : Option ℚ
  longitude : Option ℚ
deriving DecidableEq, Repr

/-- A row of the resolver's `RETURNS TABLE` projection. -/
structure BucketRow where
  id : String
  name : Option String
  username : Option String
  email : Option String
  bio : Option String
  profile_photo_url : Option String
  cover_photo_url : Option String
  instagram_url : Option String
  linked_in_url : Option String
  twitter_url : Option String
  latitude : Option ℚ
  longitude : Option ℚ
  distance_km : ℚ
deriving DecidableEq, Repr

/-- The SQL `WHERE` clause of the resolver, with SQL three-valued logic
collapsed: a `NULL` latitude/longitude/name makes the conjunction
not-true, so the row is excluded. -/
def bucketWhere (current_user_id : Option String) (lat_bucket lng_bucket : ℚ)
    (p : Profile) : Bool :=
  match p.latitude, p.longitude, p.name with
  | some plat, some plng, some _ =>
    decide (sqlRound2 plat = lat_bucket) && decide (sqlRound2 plng = lng_bucket) &&
      (match current_user_id with
       | none => true
       | some c => decide (p.id ≠ c))
  | _, _, _ => false

/-- The resolver's `SELECT` projection: copies the profile columns and
hard-sets `distance_km` to `0.0`. -/
def projectRow (p : Profile) : BucketRow :=
  { id := p.id
    name := p.name
    username := p.username
    email := p.email
    bio := p.bio
    profile_photo_url := p.profile_photo_url
    cover_photo_url := p.cover_photo_url
    instagram_url := p.instagram_url
    linked_in_url := p.linked_in_url
    twitter_url := p.twitter_url
    latitude := p.latitude
    longitude := p.longitude
    distance_km := 0 }

/-- The `ORDER BY p.name` order: name-ascending on result rows. -/
def rowLe (a b : BucketRow) : Prop :=
  a.name.getD "" ≤ b.name.getD ""

instance : DecidableRel rowLe := fun a b => by
  unfold rowLe; infer_instance

instance : IsTotal BucketRow rowLe :=
  ⟨fun _ _ => le_total _ _⟩

instance : IsTrans BucketRow rowLe :=
  ⟨fun _ _ _ => le_trans⟩

/-- Embedding of `get_users_in_location_bucket(current_user_id, user_lat, user_lng)`:
rounds the caller's coordinate to the bucket, filters profiles by the
`WHERE` clause and sorts by name ascending.  No `LIMIT` is applied. -/
def get_users_in_location_bucket (profiles : List Profile)
    (current_user_id : Option String) (user_lat user_lng : ℚ) : List BucketRow :=
  let lat_bucket := sqlRound2 user_lat
  let lng_bucket := sqlRound2 user_lng
  List.insertionSort rowLe
    ((profiles.filter (bucketWhere current_user_id lat_bucket lng_bucket)).map projectRow)

/-- The membership condition exactly as the specification words it: the
profile's latitude, longitude and name are all non-null, latitude and
longitude each round (to 2 decimals) to the rounded caller coordinate, and
the id differs from the caller's (no exclusion when the caller id is
null). -/
def specBucketMatch (current_user_id : Option String) (user_lat user_lng : ℚ)
    (p : Profile) : Bool :=
  p.latitude.isSome && p.longitude.isSome && p.name.isSome &&
    decide (sqlRound2 (p.latitude.getD 0) = sqlRound2 user_lat) &&
    decide (sqlRound2 (p.longitude.getD 0) = sqlRound2 user_lng) &&
    (match current_user_id with
     | none => true
     | some c => decide (p.id ≠ c))

/-! The Location Toggle Manager (`lib/locationToggle.ts`).

Every public operation runs against a `GeoEnv` describing what the
platform and the storage layer do during that one call (all primitive
calls inside one operation observe the same environment), and produces an
`OpLog` of its observable effects. -/

/-- Per-operation environment: platform capability, the outcome of
`getCurrentPosition`, whether the two profile-table writes succeed, and
the fresh handles returned by `watchPosition` / `setInterval`. -/
structure GeoEnv where
  geolocationSupported : Bool
  secureContext : Bool
  position : Except String RawPosition
  saveOk : Bool
  clearOk : Bool
  watchHandle : ℕ
  intervalHandle : ℕ
  now : ℕ
deriving Repr

/-- One `UPDATE` issued against the `profiles` row of `userId`. -/
structure DbWrite where
  userId : String
  latitude : Option ℚ
  longitude : Option ℚ
deriving DecidableEq, Repr

/-- Observable effects of one manager operation. -/
structure OpLog where
  positionRequests : ℕ
  dbWrites : List DbWrite
  localWrites : List Bool
  notifications : List (Option UserLocation)
  errors : List String
deriving DecidableEq, Repr

def OpLog.empty : OpLog :=
  ⟨0, [], [], [], []⟩

def OpLog.append (a b : OpLog) : OpLog :=
  ⟨a.positionRequests + b.positionRequests, a.dbWrites ++ b.dbWrites,
    a.localWrites ++ b.localWrites, a.notifications ++ b.notifications,
    a.errors ++ b.errors⟩

/-- Private state of the manager plus its bound user id and whether the
two callbacks are currently set. -/
structure Manager where
  isEnabled : Bool
  isTracking : Bool
  watchId : Option ℕ
  intervalId : Option ℕ
  currentLocation : Option UserLocation
  userId : Option String
  hasOnLocationUpdate : Bool
  hasOnError : Bool
deriving DecidableEq, Repr

/-- The constructor: `loadPersistedState` reads the persisted intent from
local storage (absent or unparsable means OFF). -/
def mkManager (persisted : Option Bool) : Manager :=
  { isEnabled := persisted.getD false
    isTracking := false
    watchId := none
    intervalId := none
    currentLocation := none
    userId := none
    hasOnLocationUpdate := false
    hasOnError := false }

/-- Result shape `{ success, error? }` of the public operations. -/
structure OpResult where
  success : Bool
  error : Option String
deriving DecidableEq, Repr

/-- Embeddings of `isGeolocationSupported()` / `isSecureContext()` read the
environment. `requestUserLocation()` checks both, then calls
`getCurrentPosition` and rounds the coordinates to two decimals; the
`requested` flag records whether `getCurrentPosition` was actually
invoked (i.e. whether a position/permission request was issued). -/
structure ReqResult where
  outcome : Except String UserLocation
  requested : Bool
deriving Repr

def requestUserLocation (env : GeoEnv) : ReqResult :=
  if !env.geolocationSupported then
    ⟨.error "Geolocation is not supported by this browser", false⟩
  else if !env.secureContext then
    ⟨.error "Location access requires a secure connection (HTTPS)", false⟩
  else
    match env.position with
    | .error e => ⟨.error ("Failed to get your location. " ++ e), true⟩
    | .ok pos =>
      ⟨.ok { latitude := toFixed2 pos.latitude
             longitude := toFixed2 pos.longitude
             accuracy := pos.accuracy
             timestamp := env.now }, true⟩

/-- Embedding of `watchUserLocation`: returns a watch handle, or `null` (reporting an
error through the error callback) when the platform checks fail. -/
def watchUserLocation (env : GeoEnv) : Option ℕ × List String :=
  if !env.geolocationSupported then
    (none, ["Geolocation is not supported by this browser"])
  else if !env.secureContext then
    (none, ["Location access requires a secure connection (HTTPS)"])
  else
    (some env.watchHandle, [])

/-- The user-id validation at the top of `saveUserLocation`. -/
def validUserId (u : String) : Bool :=
  !(u == "" || u == "null" || u == "undefined")

/-- Embedding of `saveUserLocation`: validates the user id, rounds the coordinates to
two decimals and issues the profile `UPDATE`; returns the issued writes
alongside the result. -/
def saveUserLocation (env : GeoEnv) (userId : String) (location : UserLocation) :
    (Bool × Option String) × List DbWrite :=
  if !validUserId userId then
    ((false, some "Invalid user ID provided"), [])
  else
    let w : DbWrite :=
      ⟨userId, some (toFixed2 location.latitude), some (toFixed2 location.longitude)⟩
    if env.saveOk then ((true, none), [w])
    else ((false, some "Failed to save location to profile"), [w])

/-- Embedding of `startTracking`: no-op when already tracking; otherwise starts the
geolocation watch (keeping the old `watchId` when the watch fails to
start) and the 60-second interval, then flips `isTracking`. -/
def startTracking (env : GeoEnv) (m : Manager) : Manager × OpLog :=
  if m.isTracking then (m, OpLog.empty)
  else
    let (w, errs) := watchUserLocation env
    let m1 : Manager :=
      { m with watchId := match w with | some i => some i | none => m.watchId }
    ({ m1 with intervalId := some env.intervalHandle, isTracking := true },
      { OpLog.empty with errors := if m.hasOnError then errs else [] })

/-- Embedding of `stopTracking`: no-op when not tracking; otherwise clears the watch
and the interval and flips `isTracking` off. -/
def stopTracking (m : Manager) : Manager × OpLog :=
  if !m.isTracking then (m, OpLog.empty)
  else ({ m with watchId := none, intervalId := none, isTracking := false },
    OpLog.empty)

/-- Embedding of `turnOn()`. -/
def turnOn (env : GeoEnv) (m : Manager) : OpResult × Manager × OpLog :=
  match m.userId with
  | none => (⟨false, some "User not initialized"⟩, m, OpLog.empty)
  | some uid =>
    if m.isEnabled then
      if !m.isTracking then
        let (m1, l1) := startTracking env m
        (⟨true, none⟩, m1, l1)
      else (⟨true, none⟩, m, OpLog.empty)
    else
      if !(env.geolocationSupported && env.secureContext) then
        (⟨false, some "Location not supported or requires HTTPS"⟩, m, OpLog.empty)
      else
        let req := requestUserLocation env
        let l0 : OpLog :=
          { OpLog.empty with positionRequests := if req.requested then 1 else 0 }
        match req.outcome with
        | .error e => (⟨false, some e⟩, m, l0)
        | .ok loc =>
          let ((ok, saveErr), ws) := saveUserLocation env uid loc
          let l1 := l0.append { OpLog.empty with dbWrites := ws }
          if !ok then
            (⟨false, some (saveErr.getD "Failed to save location")⟩, m, l1)
          else
            let m1 := { m with isEnabled := true, currentLocation := some loc }
            let l2 := l1.append { OpLog.empty with localWrites := [true] }
            let (m2, l3) := startTracking env m1
            let l4 := (l2.append l3).append
              { OpLog.empty with
                  notifications := if m.hasOnLocationUpdate then [some loc] else [] }
            (⟨true, none⟩, m2, l4)

/-- Embedding of `turnOff()`. -/
def turnOff (env : GeoEnv) (m : Manager) : OpResult × Manager × OpLog :=
  match m.userId with
  | none => (⟨false, some "User not initialized"⟩, m, OpLog.empty)
  | some uid =>
    if !m.isEnabled then (⟨true, none⟩, m, OpLog.empty)
    else
      let (m1, l1) := stopTracking m
      let l2 := l1.append
        { OpLog.empty with dbWrites := [⟨uid, none, none⟩] }
      if !env.clearOk then
        (⟨false, some "Failed to clear location from database"⟩, m1, l2)
      else
        let m2 := { m1 with isEnabled := false, currentLocation := none }
        let l3 := l2.append
          { OpLog.empty with
              localWrites := [false]
              notifications := if m.hasOnLocationUpdate then [none] else [] }
        (⟨true, none⟩, m2, l3)

/-- Embedding of `handleLocationUpdate(location)`: the change-detection gate fed by the
watch callback and the periodic poll. -/
def handleLocationUpdate (env : GeoEnv) (location : UserLocation) (m : Manager) :
    Manager × OpLog :=
  if !m.isEnabled then (m, OpLog.empty)
  else
    match m.userId with
    | none => (m, OpLog.empty)
    | some uid =>
      let changed :=
        match m.currentLocation with
        | none => true
        | some cur => hasLocationChanged cur location
      if changed then
        let ((ok, _), ws) := saveUserLocation env uid location
        if ok then
          ({ m with currentLocation := some location },
            { OpLog.empty with
                dbWrites := ws
                notifications := if m.hasOnLocationUpdate then [some location] else [] })
        else (m, { OpLog.empty with dbWrites := ws })
      else (m, OpLog.empty)

/-- Embedding of `updateLocationPeriodically()`: the 60-second interval body. -/
def updateLocationPeriodically (env : GeoEnv) (m : Manager) : Manager × OpLog :=
  if !m.isEnabled then (m, OpLog.empty)
  else
    match m.userId with
    | none => (m, OpLog.empty)
    | some _ =>
      let req := requestUserLocation env
      let l0 : OpLog :=
        { OpLog.empty with positionRequests := if req.requested then 1 else 0 }
      match req.outcome with
      | .ok loc =>
        let (m1, l1) := handleLocationUpdate env loc m
        (m1, l0.append l1)
      | .error _ => (m, l0)

/-- Embedding of `refreshLocation()`. -/
def refreshLocation (env : GeoEnv) (m : Manager) : OpResult × Manager × OpLog :=
  if !m.isEnabled then
    (⟨false, some "Location toggle is OFF or user not initialized"⟩, m, OpLog.empty)
  else
    match m.userId with
    | none =>
      (⟨false, some "Location toggle is OFF or user not initialized"⟩, m, OpLog.empty)
    | some uid =>
      let req := requestUserLocation env
      let l0 : OpLog :=
        { OpLog.empty with positionRequests := if req.requested then 1 else 0 }
      match req.outcome with
      | .error e => (⟨false, some e⟩, m, l0)
      | .ok loc =>
        let ((ok, saveErr), ws) := saveUserLocation env uid loc
        let l1 := l0.append { OpLog.empty with dbWrites := ws }
        if ok then
          let m1 := { m with currentLocation := some loc }
          let l2 := l1.append
            { OpLog.empty with
                notifications := if m.hasOnLocationUpdate then [some loc] else [] }
          (⟨true, none⟩, m1, l2)
        else (⟨false, saveErr⟩, m, l1)

/-- Embedding of `restoreLocationTracking()`: on success sets `currentLocation`, issues
the save (its result is ignored), starts tracking and notifies; on failure
only reports through `onError`, leaving all state untouched. -/
def restoreLocationTracking (env : GeoEnv) (m : Manager) : Manager × OpLog :=
  match m.userId with
  | none => (m, OpLog.empty)
  | some uid =>
    let req := requestUserLocation env
    let l0 : OpLog :=
      { OpLog.empty with positionRequests := if req.requested then 1 else 0 }
    match req.outcome with
    | .ok loc =>
      let m1 := { m with currentLocation := some loc }
      let (_, ws) := saveUserLocation env uid loc
      let (m2, l2) := startTracking env m1
      (m2, ((l0.append { OpLog.empty with dbWrites := ws }).append l2).append
        { OpLog.empty with
            notifications := if m.hasOnLocationUpdate then [some loc] else [] })
    | .error e =>
      (m, l0.append { OpLog.empty with errors := if m.hasOnError then [e] else [] })

/-- Embedding of `initialize(userId, onLocationUpdate?, onError?)`: binds the user and
callbacks; when the persisted intent loaded at construction is enabled,
triggers the restoration sequence. -/
def initManager (env : GeoEnv) (userId : String) (hasCb hasErr : Bool)
    (m : Manager) : Manager × OpLog :=
  let m1 := { m with
    userId := some userId
    hasOnLocationUpdate := hasCb
    hasOnError := hasErr }
  if m1.isEnabled then restoreLocationTracking env m1
  else (m1, OpLog.empty)

/-- Embedding of `setCallbacks(...)`. -/
def setCallbacks (hasCb hasErr : Bool) (m : Manager) : Manager :=
  { m with hasOnLocationUpdate := hasCb, hasOnError := hasErr }

/-- Embedding of `cleanup()`: stops tracking, detaches callbacks, keeps
`currentLocation` and `isEnabled`. -/
def cleanupManager (m : Manager) : Manager × OpLog :=
  let (m1, l1) := stopTracking m
  ({ m1 with hasOnLocationUpdate := false, hasOnError := false }, l1)

/-- The public operations (plus the two tracking-event entry points) for
reachability statements. -/
inductive Op where
  | bind (env : GeoEnv) (userId : String) (hasCb hasErr : Bool)
  | tOn (env : GeoEnv)
  | tOff (env : GeoEnv)
  | refresh (env : GeoEnv)
  | sample (env : GeoEnv) (location : UserLocation)
  | tick (env : GeoEnv)
  | callbacks (hasCb hasErr : Bool)
  | clean
deriving Repr

def step (m : Manager) : Op → Manager
  | .bind env uid cb er => (initManager env uid cb er m).1
  | .tOn env => (turnOn env m).2.1
  | .tOff env => (turnOff env m).2.1
  | .refresh env => (refreshLocation env m).2.1
  | .sample env loc => (handleLocationUpdate env loc m).1
  | .tick env => (updateLocationPeriodically env m).1
  | .callbacks cb er => setCallbacks cb er m
  | .clean => (cleanupManager m).1

/-- Run a sequence of operations from a given state. -/
def run (m : Manager) (ops : List Op) : Manager :=
  ops.foldl step m

/-- Feed a sequence of watch samples through `handleLocationUpdate`,
collecting the combined effect log. -/
def processSamples (env : GeoEnv) (m : Manager) :
    List UserLocation → Manager × OpLog
  | [] => (m, OpLog.empty)
  | l :: ls =>
    let (m1, l1) := handleLocationUpdate env l m
    let (m2, l2) := processSamples env m1 ls
    (m2, l1.append l2)

/-- The state-invariant the specification asserts for the tracking
handles, weakened to what the code maintains: when not tracking both
handles are null, and while tracking the interval handle is present (the
watch handle may be missing when the watch failed to start). -/
def handlesInvariant (m : Manager) : Prop :=
  (m.isTracking = false → m.watchId = none ∧ m.intervalId = none) ∧
    (m.isTracking = true → m.intervalId ≠ none)

/-! Theorems. -/

theorem toFixedDigits_eq_floor (m : ℚ) :
    toFixedDigits m = ⌊m * 100 + 1 / 2⌋ := by
  unfold toFixedDigits
  set t : ℚ := m * 100 with ht
  by_cases h : t - (⌊t⌋ : ℚ) < ((⌊t⌋ : ℤ) + 1 : ℚ) - t
  · rw [if_pos h]
    symm
    rw [Int.floor_eq_iff]
    constructor
    · have := Int.floor_le t
      linarith
    · linarith
  · rw [if_neg h]
    symm
    rw [Int.floor_eq_iff]
    push_cast
    constructor
    · linarith [not_lt.mp h]
    · have := Int.lt_floor_add_one t
      linarith

/-- The two rounding conventions agree on every exact value: ECMAScript
`toFixed` resolves ties upward on the magnitude, which is exactly
round-half-away-from-zero. -/
theorem toFixed2_eq_sqlRound2 (x : ℚ) : toFixed2 x = sqlRound2 x := by
  unfold toFixed2 sqlRound2
  by_cases h : x < 0
  · rw [if_pos h, if_pos h, toFixedDigits_eq_floor]
  · rw [if_neg h, if_neg h, toFixedDigits_eq_floor]

theorem floor_int_add_half (n : ℤ) : ⌊(n : ℚ) + 1 / 2⌋ = n := by
  rw [Int.floor_int_add]
  norm_num

theorem sqlRound2_int_div (n : ℤ) : sqlRound2 ((n : ℚ) / 100) = (n : ℚ) / 100 := by
  unfold sqlRound2
  by_cases h : (n : ℚ) / 100 < 0
  · rw [if_pos h]
    have he : -((n : ℚ) / 100) * 100 + 1 / 2 = ((-n : ℤ) : ℚ) + 1 / 2 := by
      push_cast; ring
    rw [he, floor_int_add_half]
    push_cast
    ring
  · rw [if_neg h]
    have he : (n : ℚ) / 100 * 100 + 1 / 2 = ((n : ℤ) : ℚ) + 1 / 2 := by ring
    rw [he, floor_int_add_half]

theorem sqlRound2_exists_cent (x : ℚ) : ∃ n : ℤ, sqlRound2 x = (n : ℚ) / 100 := by
  unfold sqlRound2
  by_cases h : x < 0
  · exact ⟨-⌊-x * 100 + 1 / 2⌋, by rw [if_pos h]; push_cast; ring⟩
  · exact ⟨⌊x * 100 + 1 / 2⌋, by rw [if_neg h]⟩

/-- Rounding to two decimals is idempotent. -/
theorem toFixed2_idem (x : ℚ) : toFixed2 (toFixed2 x) = toFixed2 x := by
  rw [toFixed2_eq_sqlRound2, toFixed2_eq_sqlRound2]
  obtain ⟨n, hn⟩ := sqlRound2_exists_cent x
  rw [hn, sqlRound2_int_div]

theorem sqlRound2_idem (x : ℚ) : sqlRound2 (sqlRound2 x) = sqlRound2 x := by
  obtain ⟨n, hn⟩ := sqlRound2_exists_cent x
  rw [hn, sqlRound2_int_div]

/-- C2: the bucket-equality test is invariant under pre-rounding its
inputs to two decimal places — both on the client (`sameBucket`, the
negation of `hasLocationChanged`) and on the server (the `ROUND`-based
equality of the SQL bucket query) — and the example pair
`(37.7749, -122.4194)` / `(37.774999, -122.419999)` is judged the same
bucket. -/
theorem sameBucket_pre_rounding_invariant :
    (∀ a b : UserLocation,
      sameBucket a b = sameBucket (roundLocation a) (roundLocation b)) ∧
    (∀ a b : ℚ,
      (sqlRound2 a = sqlRound2 b) ↔
        (sqlRound2 (sqlRound2 a) = sqlRound2 (sqlRound2 b))) ∧
    sameBucket ⟨37.7749, -122.4194, 0, 0⟩ ⟨37.774999, -122.419999, 0, 0⟩ = true := by
  refine ⟨?_, ?_, ?_⟩
  · intro a b
    unfold sameBucket hasLocationChanged roundLocation
    simp [toFixed2_idem]
  · intro a b
    rw [sqlRound2_idem, sqlRound2_idem]
  · unfold sameBucket hasLocationChanged
    rw [toFixed2_eq_sqlRound2, toFixed2_eq_sqlRound2, toFixed2_eq_sqlRound2,
      toFixed2_eq_sqlRound2]
    norm_num [sqlRound2]

/-- C9: the client-side rounding `Number(x.toFixed(2))` and the
server-side rounding `ROUND(x::numeric, 2)` agree on every exact value,
hence the client-side bucket comparison and the server-side bucket query
place the same pairs of coordinates in the same bucket; the boundary value
`1.005` (of the form `x.xx5`) rounds to `1.01` on both sides. -/
theorem rounding_bit_exact_contract :
    (∀ x : ℚ, toFixed2 x = sqlRound2 x) ∧
    (∀ la lb ga gb : ℚ,
      ((toFixed2 la = toFixed2 lb) ∧ (toFixed2 ga = toFixed2 gb)) ↔
        ((sqlRound2 la = sqlRound2 lb) ∧ (sqlRound2 ga = sqlRound2 gb))) ∧
    toFixed2 (1.005 : ℚ) = 1.01 ∧ sqlRound2 (1.005 : ℚ) = 1.01 := by
  refine ⟨toFixed2_eq_sqlRound2, ?_,
    by rw [toFixed2_eq_sqlRound2]; norm_num [sqlRound2], by norm_num [sqlRound2]⟩
  intro la lb ga gb
  rw [toFixed2_eq_sqlRound2, toFixed2_eq_sqlRound2, toFixed2_eq_sqlRound2,
    toFixed2_eq_sqlRound2]

theorem bucketWhere_eq_specBucketMatch (current_user_id : Option String)
    (user_lat user_lng : ℚ) (p : Profile) :
    bucketWhere current_user_id (sqlRound2 user_lat) (sqlRound2 user_lng) p =
      specBucketMatch current_user_id user_lat user_lng p := by
  unfold bucketWhere specBucketMatch
  cases hlat : p.latitude <;> cases hlng : p.longitude <;> cases hname : p.name <;>
    cases current_user_id <;> simp [hlat, hlng, hname]

/-- C1: `get_users_in_location_bucket(current_user_id, user_lat,
user_lng)` returns exactly the profiles whose latitude, longitude and name
are all non-null, whose latitude and longitude round (2 decimals) to the
rounded caller coordinate and whose id differs from the caller's (no
exclusion when the caller id is null); the rows are ordered by name
ascending, every row's `distance_km` is `0`, and no limit is applied (the
result is a permutation of the full filtered projection). -/
theorem get_users_in_location_bucket_spec (profiles : List Profile)
    (current_user_id : Option String) (user_lat user_lng : ℚ) :
    List.Perm (get_users_in_location_bucket profiles current_user_id user_lat user_lng)
      ((profiles.filter (specBucketMatch current_user_id user_lat user_lng)).map
        projectRow) ∧
    List.Sorted rowLe
      (get_users_in_location_bucket profiles current_user_id user_lat user_lng) ∧
    ∀ r ∈ get_users_in_location_bucket profiles current_user_id user_lat user_lng,
      r.distance_km = 0 := by
  refine ⟨?_, ?_, ?_⟩
  · show List.Perm (List.insertionSort rowLe _) _
    rw [List.filter_congr
      (fun p _ => bucketWhere_eq_specBucketMatch current_user_id user_lat user_lng p)]
    exact List.perm_insertionSort rowLe _
  · exact List.sorted_insertionSort rowLe _
  · intro r hr
    have hr2 : r ∈ List.insertionSort rowLe
        (List.map projectRow
          (List.filter
            (bucketWhere current_user_id (sqlRound2 user_lat) (sqlRound2 user_lng))
            profiles)) := hr
    rw [List.mem_insertionSort] at hr2
    obtain ⟨p, _, rfl⟩ := List.mem_map.mp hr2
    rfl

/-- C3: first enable.  From an initialized, disabled manager, when the
platform checks pass, position acquisition yields `pos` and the profile
write succeeds, `turnOn()` returns success, persists the coordinate
rounded to two decimals, flips `isEnabled`, persists the intent to local
storage, starts tracking, and calls `onLocationUpdate` exactly once with
the new location. -/
theorem turnOn_first_enable (env : GeoEnv) (m : Manager) (uid : String)
    (pos : RawPosition)
    (hu : m.userId = some uid) (hv : validUserId uid = true)
    (hen : m.isEnabled = false) (htr : m.isTracking = false)
    (hcb : m.hasOnLocationUpdate = true)
    (hgs : env.geolocationSupported = true) (hsc : env.secureContext = true)
    (hpos : env.position = Except.ok pos) (hsave : env.saveOk = true) :
    (turnOn env m).1.success = true ∧
    (turnOn env m).2.2.dbWrites =
      [⟨uid, some (toFixed2 pos.latitude), some (toFixed2 pos.longitude)⟩] ∧
    (turnOn env m).2.1.isEnabled = true ∧
    (turnOn env m).2.2.localWrites = [true] ∧
    (turnOn env m).2.1.isTracking = true ∧
    (turnOn env m).2.1.currentLocation =
      some ⟨toFixed2 pos.latitude, toFixed2 pos.longitude, pos.accuracy, env.now⟩ ∧
    (turnOn env m).2.2.notifications =
      [some ⟨toFixed2 pos.latitude, toFixed2 pos.longitude, pos.accuracy, env.now⟩] ∧
    (turnOn env m).2.2.positionRequests = 1 := by
  cases m
  cases env
  simp_all [turnOn, requestUserLocation, saveUserLocation, startTracking,
    watchUserLocation, OpLog.append, OpLog.empty, toFixed2_idem]

def mgrFirstEnable : Manager :=
  { mkManager none with userId := some "user-1", hasOnLocationUpdate := true }

def envFirstEnable : GeoEnv :=
  ⟨true, true, Except.ok ⟨12.9716, 77.5946, 10⟩, true, true, 7, 8, 99⟩

theorem turnOn_first_enable_witness :
    validUserId "user-1" = true ∧
    (turnOn envFirstEnable mgrFirstEnable).1.success = true ∧
    (turnOn envFirstEnable mgrFirstEnable).2.2.dbWrites =
      [⟨"user-1", some (toFixed2 12.9716), some (toFixed2 77.5946)⟩] ∧
    (turnOn envFirstEnable mgrFirstEnable).2.1.isEnabled = true := by
  have h := turnOn_first_enable envFirstEnable mgrFirstEnable "user-1"
    ⟨12.9716, 77.5946, 10⟩ rfl rfl rfl rfl rfl rfl rfl rfl rfl
  exact ⟨rfl, h.1, h.2.1, h.2.2.1⟩

/-- C4: failed enable is atomic.  From an initialized, disabled manager,
if any step of `turnOn()` fails (geolocation unsupported, insecure
context, position acquisition failure, or profile-write failure), the
call returns `{success: false}` with an error message and leaves the
manager state unchanged, writes nothing to local storage and never calls
`onLocationUpdate`. -/
theorem turnOn_failure_atomic (env : GeoEnv) (m : Manager) (uid : String)
    (hu : m.userId = some uid) (hen : m.isEnabled = false)
    (hfail : env.geolocationSupported = false ∨ env.secureContext = false ∨
      (∃ e, env.position = Except.error e) ∨ env.saveOk = false) :
    (turnOn env m).1.success = false ∧
    (turnOn env m).1.error ≠ none ∧
    (turnOn env m).2.1 = m ∧
    (turnOn env m).2.2.localWrites = [] ∧
    (turnOn env m).2.2.notifications = [] := by
  obtain ⟨en, tr, w, iv, cl, u, cb, er⟩ := m
  obtain ⟨gs, sc, posr, sv, clr, wh, ih, nw⟩ := env
  rcases hfail with h | h | ⟨e, h⟩ | h <;>
    cases gs <;> cases sc <;> cases hvv : validUserId uid <;> cases posr <;>
    simp_all [turnOn, requestUserLocation, saveUserLocation, OpLog.append, OpLog.empty]

theorem turnOn_failure_atomic_witness :
    (turnOn { envFirstEnable with position := Except.error "User denied Geolocation" }
      mgrFirstEnable).1.success = false ∧
    (turnOn { envFirstEnable with position := Except.error "User denied Geolocation" }
      mgrFirstEnable).2.1 = mgrFirstEnable := by
  have h := turnOn_failure_atomic
    { envFirstEnable with position := Except.error "User denied Geolocation" }
    mgrFirstEnable "user-1" rfl rfl
    (Or.inr (Or.inr (Or.inl ⟨"User denied Geolocation", rfl⟩)))
  exact ⟨h.1, h.2.2.1⟩

theorem hasLocationChanged_congr_left (a b c : UserLocation)
    (h : hasLocationChanged a b = false) :
    hasLocationChanged a c = hasLocationChanged b c := by
  unfold hasLocationChanged at h ⊢
  simp only [decide_eq_false_iff_not, not_or, not_not] at h
  rw [h.1, h.2]

/-- C5: change-detection suppression.  With the toggle enabled, a sample
triggers a persistence write (with a notification) exactly when
`currentLocation` is null or the sample's rounded bucket differs from it;
two consecutive samples in the same bucket yield exactly one write, and a
third sample in a different bucket yields exactly one more. -/
theorem change_detection_suppression (env : GeoEnv) (m : Manager) (uid : String)
    (s1 s2 s3 : UserLocation)
    (hu : m.userId = some uid) (hv : validUserId uid = true)
    (hen : m.isEnabled = true) (hcl : m.currentLocation = none)
    (hcb : m.hasOnLocationUpdate = true) (hsave : env.saveOk = true)
    (h12 : hasLocationChanged s1 s2 = false)
    (h23 : hasLocationChanged s2 s3 = true) :
    ((processSamples env m [s1, s2]).2.dbWrites.length = 1 ∧
      (processSamples env m [s1, s2]).2.notifications.length = 1 ∧
      (processSamples env m [s1, s2, s3]).2.dbWrites.length = 2 ∧
      (processSamples env m [s1, s2, s3]).2.notifications.length = 2) ∧
    (∀ (loc : UserLocation) (m2 : Manager),
      m2.isEnabled = true → m2.userId = some uid →
      ((handleLocationUpdate env loc m2).2.dbWrites ≠ [] ↔
        (m2.currentLocation = none ∨
          ∃ cur, m2.currentLocation = some cur ∧ hasLocationChanged cur loc = true))) := by
  have h13 : hasLocationChanged s1 s3 = true := by
    rw [hasLocationChanged_congr_left s1 s2 s3 h12]
    exact h23
  constructor
  · obtain ⟨en, tr, w, iv, cl, u, cb, er⟩ := m
    simp_all [processSamples, handleLocationUpdate, saveUserLocation,
      OpLog.append, OpLog.empty]
  · intro loc m2 h1 h2
    cases hc : m2.currentLocation with
    | none =>
      simp [handleLocationUpdate, h1, h2, hc, saveUserLocation, hv, hsave,
        OpLog.empty]
    | some cur =>
      cases hch : hasLocationChanged cur loc <;>
        simp [handleLocationUpdate, h1, h2, hc, hch, saveUserLocation, hv, hsave,
          OpLog.empty]

def mgrEnabled : Manager :=
  { mkManager none with
      userId := some "user-1"
      hasOnLocationUpdate := true
      isEnabled := true }

theorem change_detection_suppression_witness :
    hasLocationChanged ⟨12.97, 77.59, 1, 0⟩ ⟨12.97, 77.59, 1, 60⟩ = false ∧
    hasLocationChanged ⟨12.97, 77.59, 1, 60⟩ ⟨13, 77.59, 1, 120⟩ = true ∧
    (processSamples envFirstEnable mgrEnabled
      [⟨12.97, 77.59, 1, 0⟩, ⟨12.97, 77.59, 1, 60⟩]).2.dbWrites.length = 1 ∧
    (processSamples envFirstEnable mgrEnabled
      [⟨12.97, 77.59, 1, 0⟩, ⟨12.97, 77.59, 1, 60⟩,
        ⟨13, 77.59, 1, 120⟩]).2.dbWrites.length = 2 := by
  have hA : hasLocationChanged ⟨12.97, 77.59, 1, 0⟩ ⟨12.97, 77.59, 1, 60⟩ = false := by
    simp [hasLocationChanged]
  have hB : hasLocationChanged ⟨12.97, 77.59, 1, 60⟩ ⟨13, 77.59, 1, 120⟩ = true := by
    unfold hasLocationChanged
    simp only [toFixed2_eq_sqlRound2]
    norm_num [sqlRound2]
  have h := change_detection_suppression envFirstEnable mgrEnabled "user-1"
    ⟨12.97, 77.59, 1, 0⟩ ⟨12.97, 77.59, 1, 60⟩ ⟨13, 77.59, 1, 120⟩
    rfl rfl rfl rfl rfl rfl hA hB
  exact ⟨hA, hB, h.1.1, h.1.2.2.1⟩

/-- C6: toggle idempotence.  `turnOn()` while already enabled returns
success without a position/permission request (restarting tracking only if
it had stopped); two consecutive `turnOn()` calls from OFF both succeed
with exactly one position request in total; `turnOff()` while already off
returns success with no state change and no side effects. -/
theorem toggle_idempotent (env env1 env2 : GeoEnv) (m m0 : Manager)
    (uid uid0 : String) (pos : RawPosition)
    (hu : m.userId = some uid) (hen : m.isEnabled = true)
    (hu0 : m0.userId = some uid0) (hv0 : validUserId uid0 = true)
    (hen0 : m0.isEnabled = false) (htr0 : m0.isTracking = false)
    (hgs1 : env1.geolocationSupported = true) (hsc1 : env1.secureContext = true)
    (hpos1 : env1.position = Except.ok pos) (hsave1 : env1.saveOk = true) :
    ((turnOn env m).1 = ⟨true, none⟩ ∧
      (turnOn env m).2.2.positionRequests = 0 ∧
      (turnOn env m).2.2.dbWrites = [] ∧
      (turnOn env m).2.2.localWrites = [] ∧
      (turnOn env m).2.2.notifications = [] ∧
      (m.isTracking = true → (turnOn env m).2.1 = m) ∧
      (m.isTracking = false → (turnOn env m).2.1 = (startTracking env m).1)) ∧
    ((turnOn env1 m0).1.success = true ∧
      (turnOn env2 (turnOn env1 m0).2.1).1.success = true ∧
      (turnOn env1 m0).2.2.positionRequests = 1 ∧
      (turnOn env2 (turnOn env1 m0).2.1).2.2.positionRequests = 0) ∧
    turnOff env m0 = (⟨true, none⟩, m0, OpLog.empty) := by
  refine ⟨?_, ?_, ?_⟩
  · cases htr : m.isTracking <;>
      simp_all [turnOn, startTracking, OpLog.empty]
  · obtain ⟨en0, tr0, w0, iv0, cl0, u0, cb0, er0⟩ := m0
    obtain ⟨gs1, sc1, posr1, sv1, clr1, wh1, ih1, nw1⟩ := env1
    simp_all [turnOn, requestUserLocation, saveUserLocation, startTracking,
      watchUserLocation, OpLog.append, OpLog.empty]
  · obtain ⟨en0, tr0, w0, iv0, cl0, u0, cb0, er0⟩ := m0
    simp_all [turnOff]

theorem toggle_idempotent_witness :
    ((turnOn envFirstEnable mgrEnabled).1 = ⟨true, none⟩ ∧
      (turnOn envFirstEnable mgrEnabled).2.2.positionRequests = 0) ∧
    ((turnOn envFirstEnable mgrFirstEnable).1.success = true ∧
      (turnOn envFirstEnable (turnOn envFirstEnable mgrFirstEnable).2.1).1.success =
        true ∧
      (turnOn envFirstEnable mgrFirstEnable).2.2.positionRequests = 1 ∧
      (turnOn envFirstEnable
        (turnOn envFirstEnable mgrFirstEnable).2.1).2.2.positionRequests = 0) ∧
    turnOff envFirstEnable mgrFirstEnable =
      (⟨true, none⟩, mgrFirstEnable, OpLog.empty) := by
  have h := toggle_idempotent envFirstEnable envFirstEnable envFirstEnable
    mgrEnabled mgrFirstEnable "user-1" "user-1" ⟨12.9716, 77.5946, 10⟩
    rfl rfl rfl rfl rfl rfl rfl rfl rfl rfl
  exact ⟨⟨h.1.1, h.1.2.1⟩, h.2.1, h.2.2⟩

/-- C7: turn-off asymmetry.  With the toggle enabled, if the database
write that nulls the coordinates fails, `turnOff()` returns failure,
tracking has been stopped and is not restarted (both handles null), while
`isEnabled` stays true and `currentLocation` is unchanged; nothing is
persisted to local storage and no notification is sent. -/
theorem turnOff_write_failure_asymmetry (env : GeoEnv) (m : Manager) (uid : String)
    (hu : m.userId = some uid) (hen : m.isEnabled = true)
    (hclear : env.clearOk = false)
    (hpair : m.isTracking = false → m.watchId = none ∧ m.intervalId = none) :
    (turnOff env m).1.success = false ∧
    (turnOff env m).1.error = some "Failed to clear location from database" ∧
    (turnOff env m).2.1.isTracking = false ∧
    (turnOff env m).2.1.watchId = none ∧
    (turnOff env m).2.1.intervalId = none ∧
    (turnOff env m).2.1.isEnabled = true ∧
    (turnOff env m).2.1.currentLocation = m.currentLocation ∧
    (turnOff env m).2.2.localWrites = [] ∧
    (turnOff env m).2.2.notifications = [] := by
  obtain ⟨en, tr, w, iv, cl, u, cb, er⟩ := m
  cases tr <;> simp_all [turnOff, stopTracking, OpLog.append, OpLog.empty]

theorem turnOff_write_failure_asymmetry_witness :
    (turnOff { envFirstEnable with clearOk := false } mgrEnabled).1.success = false ∧
    (turnOff { envFirstEnable with clearOk := false } mgrEnabled).2.1.isEnabled =
      true ∧
    (turnOff { envFirstEnable with clearOk := false } mgrEnabled).2.1.isTracking =
      false := by
  have h := turnOff_write_failure_asymmetry
    { envFirstEnable with clearOk := false } mgrEnabled "user-1" rfl rfl rfl
    (fun _ => ⟨rfl, rfl⟩)
  exact ⟨h.1, h.2.2.2.2.2.1, h.2.2.1⟩

/-- C8: restore on reload.  A manager constructed from persisted intent
`enabled=true` triggers restoration from `initialize` alone: it requests
the current position, persists it, starts tracking and calls
`onLocationUpdate` with the acquired location; when position acquisition
fails, `onError` is called but `isEnabled` is not flipped back to
false. -/
theorem init_restores_tracking (envA envB : GeoEnv) (uid : String)
    (pos : RawPosition) (e : String)
    (hv : validUserId uid = true)
    (hgsA : envA.geolocationSupported = true) (hscA : envA.secureContext = true)
    (hposA : envA.position = Except.ok pos) (hsaveA : envA.saveOk = true)
    (hgsB : envB.geolocationSupported = true) (hscB : envB.secureContext = true)
    (hposB : envB.position = Except.error e) :
    ((initManager envA uid true true (mkManager (some true))).2.positionRequests =
        1 ∧
      (initManager envA uid true true (mkManager (some true))).2.dbWrites =
        [⟨uid, some (toFixed2 pos.latitude), some (toFixed2 pos.longitude)⟩] ∧
      (initManager envA uid true true (mkManager (some true))).1.isTracking = true ∧
      (initManager envA uid true true (mkManager (some true))).2.notifications =
        [some ⟨toFixed2 pos.latitude, toFixed2 pos.longitude, pos.accuracy,
          envA.now⟩] ∧
      (initManager envA uid true true (mkManager (some true))).1.isEnabled = true) ∧
    ((initManager envB uid true true (mkManager (some true))).2.errors =
        ["Failed to get your location. " ++ e] ∧
      (initManager envB uid true true (mkManager (some true))).1.isEnabled = true ∧
      (initManager envB uid true true (mkManager (some true))).1.isTracking =
        false ∧
      (initManager envB uid true true (mkManager (some true))).2.notifications =
        [] ∧
      (initManager envB uid true true (mkManager (some true))).2.dbWrites = []) := by
  obtain ⟨gsA, scA, posrA, svA, clrA, whA, ihA, nwA⟩ := envA
  obtain ⟨gsB, scB, posrB, svB, clrB, whB, ihB, nwB⟩ := envB
  simp_all [initManager, restoreLocationTracking, requestUserLocation,
    saveUserLocation, startTracking, watchUserLocation, mkManager,
    OpLog.append, OpLog.empty, toFixed2_idem]

theorem init_restores_tracking_witness :
    validUserId "user-1" = true ∧
    (initManager envFirstEnable "user-1" true true
      (mkManager (some true))).1.isTracking = true ∧
    (initManager
      { envFirstEnable with position := Except.error "Timeout expired" }
      "user-1" true true (mkManager (some true))).1.isEnabled = true := by
  have h := init_restores_tracking envFirstEnable
    { envFirstEnable with position := Except.error "Timeout expired" }
    "user-1" ⟨12.9716, 77.5946, 10⟩ "Timeout expired"
    rfl rfl rfl rfl rfl rfl rfl rfl
  exact ⟨rfl, h.1.2.2.1, h.2.2.1⟩

theorem handlesInvariant_of_fields (m m2 : Manager)
    (h1 : m2.isTracking = m.isTracking) (h2 : m2.watchId = m.watchId)
    (h3 : m2.intervalId = m.intervalId) (h : handlesInvariant m) :
    handlesInvariant m2 := by
  unfold handlesInvariant at *
  rw [h1, h2, h3]
  exact h

theorem handlesInvariant_startTracking (env : GeoEnv) (m : Manager)
    (h : handlesInvariant m) : handlesInvariant (startTracking env m).1 := by
  unfold startTracking
  cases htr : m.isTracking
  · simp [htr, handlesInvariant]
  · simpa [htr] using h

theorem handlesInvariant_stopTracking (m : Manager)
    (h : handlesInvariant m) : handlesInvariant (stopTracking m).1 := by
  unfold stopTracking
  cases htr : m.isTracking
  · simpa [htr] using h
  · simp [htr, handlesInvariant]

theorem handlesInvariant_turnOn (env : GeoEnv) (m : Manager)
    (h : handlesInvariant m) : handlesInvariant (turnOn env m).2.1 := by
  unfold turnOn
  cases hu : m.userId with
  | none => exact h
  | some uid =>
    cases hen : m.isEnabled with
    | true =>
      cases htr : m.isTracking with
      | true => simpa [hen, htr] using h
      | false =>
        simp only [htr, Bool.not_false, if_true]
        exact handlesInvariant_startTracking env m h
    | false =>
      by_cases hcap : (env.geolocationSupported && env.secureContext) = true
      · cases hreq : (requestUserLocation env).outcome with
        | error e => simp [hcap, hreq, h]
        | ok loc =>
          cases hsv : (saveUserLocation env uid loc).1.1 with
          | false => simp [hcap, hreq, hsv, h]
          | true =>
            simp only [hcap, hreq, hsv, Bool.not_true, Bool.not_false,
              Bool.false_eq_true, if_false, if_true]
            refine handlesInvariant_startTracking env _ ?_
            exact handlesInvariant_of_fields _ _ rfl rfl rfl h
      · simp [hcap, h]

theorem handlesInvariant_turnOff (env : GeoEnv) (m : Manager)
    (h : handlesInvariant m) : handlesInvariant (turnOff env m).2.1 := by
  unfold turnOff
  cases hu : m.userId with
  | none => exact h
  | some uid =>
    cases hen : m.isEnabled with
    | false => simp [hen, h]
    | true =>
      cases hclr : env.clearOk with
      | true =>
        simp only [hen, hclr, Bool.not_true, Bool.not_false, Bool.false_eq_true,
          if_false, if_true]
        refine handlesInvariant_of_fields _ _ rfl rfl rfl ?_
        exact handlesInvariant_stopTracking m h
      | false =>
        simp only [hen, hclr, Bool.not_true, Bool.not_false, Bool.false_eq_true,
          if_false, if_true]
        exact handlesInvariant_stopTracking m h

theorem handlesInvariant_handleLocationUpdate (env : GeoEnv) (loc : UserLocation)
    (m : Manager) (h : handlesInvariant m) :
    handlesInvariant (handleLocationUpdate env loc m).1 := by
  unfold handleLocationUpdate
  cases hen : m.isEnabled
  · simpa using h
  · cases hu : m.userId
    · simpa using h
    · simp only [Bool.not_true, Bool.false_eq_true, if_false]
      cases hc : m.currentLocation <;>
      · simp only []
        split <;>
          first
            | exact handlesInvariant_of_fields _ _ rfl rfl rfl h
            | exact h
            | (split <;> exact handlesInvariant_of_fields _ _ rfl rfl rfl h)

theorem handlesInvariant_updateLocationPeriodically (env : GeoEnv) (m : Manager)
    (h : handlesInvariant m) :
    handlesInvariant (updateLocationPeriodically env m).1 := by
  unfold updateLocationPeriodically
  cases hen : m.isEnabled
  · simpa using h
  · cases hu : m.userId
    · simpa using h
    · simp only [Bool.not_true, Bool.false_eq_true, if_false]
      cases hreq : (requestUserLocation env).outcome with
      | error e => simpa [hreq] using h
      | ok loc =>
        simp only [hreq]
        exact handlesInvariant_handleLocationUpdate env loc m h

theorem handlesInvariant_refreshLocation (env : GeoEnv) (m : Manager)
    (h : handlesInvariant m) : handlesInvariant (refreshLocation env m).2.1 := by
  unfold refreshLocation
  cases hen : m.isEnabled
  · simpa using h
  · cases hu : m.userId
    · simpa using h
    · simp only [Bool.not_true, Bool.false_eq_true, if_false]
      cases hreq : (requestUserLocation env).outcome with
      | error e => simpa [hreq] using h
      | ok loc =>
        simp only [hreq]
        cases hsv : (saveUserLocation env _ loc).1.1
        · simpa [hsv] using h
        · simp only [hsv]
          exact handlesInvariant_of_fields _ _ rfl rfl rfl h

theorem handlesInvariant_restore (env : GeoEnv) (m : Manager)
    (h : handlesInvariant m) :
    handlesInvariant (restoreLocationTracking env m).1 := by
  unfold restoreLocationTracking
  cases hu : m.userId
  · exact h
  · cases hreq : (requestUserLocation env).outcome with
    | error e => simpa [hreq] using h
    | ok loc =>
      simp only [hreq]
      refine handlesInvariant_startTracking env _ ?_
      exact handlesInvariant_of_fields _ _ rfl rfl rfl h

theorem handlesInvariant_initManager (env : GeoEnv) (uid : String)
    (cb er : Bool) (m : Manager) (h : handlesInvariant m) :
    handlesInvariant (initManager env uid cb er m).1 := by
  unfold initManager
  have h1 : handlesInvariant
      { m with userId := some uid, hasOnLocationUpdate := cb, hasOnError := er } :=
    handlesInvariant_of_fields _ _ rfl rfl rfl h
  cases hen : m.isEnabled with
  | true =>
    simp only [hen, if_true]
    exact handlesInvariant_restore env _ h1
  | false => simpa [hen] using h1

theorem handlesInvariant_step (m : Manager) (op : Op)
    (h : handlesInvariant m) : handlesInvariant (step m op) := by
  cases op with
  | bind env uid cb er => exact handlesInvariant_initManager env uid cb er m h
  | tOn env => exact handlesInvariant_turnOn env m h
  | tOff env => exact handlesInvariant_turnOff env m h
  | refresh env => exact handlesInvariant_refreshLocation env m h
  | sample env loc => exact handlesInvariant_handleLocationUpdate env loc m h
  | tick env => exact handlesInvariant_updateLocationPeriodically env m h
  | callbacks cb er => exact handlesInvariant_of_fields _ _ rfl rfl rfl h
  | clean =>
    refine handlesInvariant_of_fields _ _ rfl rfl rfl ?_
    exact handlesInvariant_stopTracking m h

/-- C10 (amended): in every reachable state of the manager, when
`isTracking` is false both handles are null, and when `isTracking` is true
the interval handle is non-null — but the watch handle may be null while
tracking, because `startTracking` tolerates a failed watch start (see the
counterexample). -/
theorem tracking_handles_paired (p : Option Bool) (ops : List Op) :
    handlesInvariant (run (mkManager p) ops) := by
  have hbase : handlesInvariant (mkManager p) := by
    constructor <;> simp [mkManager]
  have hgen : ∀ (l : List Op) (m : Manager),
      handlesInvariant m → handlesInvariant (run m l) := by
    intro l
    induction l with
    | nil => intro m h; exact h
    | cons op rest ih =>
      intro m h
      exact ih (step m op) (handlesInvariant_step m op h)
  exact hgen ops (mkManager p) hbase

def envOnC10 : GeoEnv :=
  ⟨true, true, Except.ok ⟨1, 2, 3⟩, true, true, 7, 8, 0⟩

def envInsecureC10 : GeoEnv :=
  { envOnC10 with secureContext := false }

def opsC10 : List Op :=
  [Op.bind envOnC10 "user-1" true true, Op.tOn envOnC10, Op.clean,
    Op.tOn envInsecureC10]

/-- C10 counterexample: after enabling with a good environment, cleaning
up (which stops tracking but keeps the enabled intent), and calling
`turnOn()` again in an insecure context, the manager is tracking with a
null `watchId` — refuting the claim that `watchId` and `intervalId` are
always paired with `isTracking`. -/
theorem tracking_handles_paired_counterexample :
    (run (mkManager none) opsC10).isTracking = true ∧
    (run (mkManager none) opsC10).watchId = none ∧
    (run (mkManager none) opsC10).intervalId = some 8 := by
  refine ⟨?_, ?_, ?_⟩ <;>
    simp [run, step, opsC10, envOnC10, envInsecureC10, mkManager, initManager,
      turnOn, requestUserLocation, saveUserLocation, startTracking,
      watchUserLocation, stopTracking, cleanupManager, validUserId,
      OpLog.append, OpLog.empty]

end Zenlit
